import Mathlib

/-!
Shallow embedding of the geospatial/demographic metrics module (`main.py`):
`GlobeRect`/`Region`/`RegionCondition` records, spherical-zone `area` with
longitude wraparound, emissions metrics, the `densest` selection scan and the
terrain-dependent compound-growth projector `project_condition`.

Python floats are modelled as exact reals.  Python's float modulo `x % y`
(sign follows the divisor) is `pyMod`; Python's built-in `round`
(round-half-to-even) is `pyRound`.  Functions that `raise ValueError` are
modelled in `Except String`.
-/

namespace GeoModel

/-- `EARTH_RADIUS_KM = 6371.0` from the source. -/
def EARTH_RADIUS_KM : ℝ := 6371.0

/-- `math.radians(x) = x * π / 180`. -/
noncomputable def radians (x : ℝ) : ℝ := x * Real.pi / 180

/-- Python's float modulo `x % y` for `y > 0`: the result has the sign of the
divisor, i.e. `x - y * ⌊x / y⌋`. -/
noncomputable def pyMod (x y : ℝ) : ℝ := x - y * ⌊x / y⌋

/-- Python's built-in `round` on a real: nearest integer, ties to even. -/
noncomputable def pyRound (x : ℝ) : ℤ :=
  if Int.fract x < 1 / 2 then ⌊x⌋
  else if 1 / 2 < Int.fract x then ⌊x⌋ + 1
  else if 2 ∣ ⌊x⌋ then ⌊x⌋ else ⌊x⌋ + 1

/-- `GlobeRect`: latitude/longitude bounds in degrees (frozen dataclass). -/
structure GlobeRect where
  lo_lat : ℝ
  hi_lat : ℝ
  west_long : ℝ
  east_long : ℝ

/-- The closed terrain enumeration `Literal["ocean", "mountains", "forest", "other"]`. -/
inductive Terrain where
  | ocean
  | mountains
  | forest
  | other
deriving DecidableEq

/-- `Region`: a rectangle, a name and a terrain tag (frozen dataclass). -/
structure Region where
  rect : GlobeRect
  name : String
  terrain : Terrain

/-- `RegionCondition`: a point-in-time snapshot (frozen dataclass). -/
structure RegionCondition where
  region : Region
  year : ℤ
  pop : ℤ
  ghg_rate : ℝ

/-- `area(gr)` from the source:
`R² * |sin(radians hi_lat) - sin(radians lo_lat)| * radians((east - west) % 360)`. -/
noncomputable def area (gr : GlobeRect) : ℝ :=
  let y1 := radians gr.lo_lat
  let y2 := radians gr.hi_lat
  let d := radians (pyMod (gr.east_long - gr.west_long) 360)
  EARTH_RADIUS_KM ^ 2 * |Real.sin y2 - Real.sin y1| * d

/-- `emissions_per_capita(rc)`: raises on zero population, else `ghg_rate / pop`. -/
noncomputable def emissions_per_capita (rc : RegionCondition) : Except String ℝ :=
  if rc.pop = 0 then .error "Population is zero - emissions per capita undefined"
  else .ok (rc.ghg_rate / (rc.pop : ℝ))

/-- `emissions_per_square_km(rc)`: raises on zero area, else `ghg_rate / area`. -/
noncomputable def emissions_per_square_km (rc : RegionCondition) : Except String ℝ :=
  let a := area rc.region.rect
  if a = 0 then .error "Area is zero - emissions per square km undefined"
  else .ok (rc.ghg_rate / a)

/-- The `for` loop of `densest`: carries `best_name`/`best_density`, skips
zero-area candidates, updates on strict `>`. -/
noncomputable def densestLoop :
    List RegionCondition → Option String → ℝ → Option String
  | [], best_name, _ => best_name
  | rc :: rest, best_name, best_density =>
    let a := area rc.region.rect
    if a = 0 then densestLoop rest best_name best_density
    else if (rc.pop : ℝ) / a > best_density then
      densestLoop rest (some rc.region.name) ((rc.pop : ℝ) / a)
    else densestLoop rest best_name best_density

/-- `densest(rcs)`: raises on the empty list, runs the scan from
`(None, -1.0)`, raises if no candidate was retained. -/
noncomputable def densest (rcs : List RegionCondition) : Except String String :=
  match rcs with
  | [] => .error "Empty list - no regions to compare."
  | _ :: _ =>
    match densestLoop rcs none (-1) with
    | none => .error "All regions had zero area."
    | some n => .ok n

/-- The `TERRAIN_GROWTH` lookup table. -/
def TERRAIN_GROWTH : Terrain → ℝ
  | .ocean => 0.0001
  | .mountains => 0.0005
  | .forest => -0.00001
  | .other => 0.00003

/-- `growth_factor(terrain, years) = (1.0 + r) ** years` (integer exponent,
real power, negatives allowed). -/
noncomputable def growth_factor (terrain : Terrain) (years : ℤ) : ℝ :=
  (1.0 + TERRAIN_GROWTH terrain) ^ years

/-- `project_condition(rc, n)`: identity at `n = 0`, otherwise a new snapshot
with scaled population (rounded, clamped at 0) and scaled `ghg_rate`. -/
noncomputable def project_condition (rc : RegionCondition) (n : ℤ) : RegionCondition :=
  if n = 0 then rc
  else
    let factor := growth_factor rc.region.terrain n
    { region := rc.region
      year := rc.year + n
      pop := max 0 (pyRound ((rc.pop : ℝ) * factor))
      ghg_rate := rc.ghg_rate * factor }

/-- Population density `pop / area` used by `densest` (spec-side shorthand
for stating the selection property). -/
noncomputable def density (rc : RegionCondition) : ℝ :=
  (rc.pop : ℝ) / area rc.region.rect

/-- The candidates `densest` does not skip: those whose region has nonzero
area (spec-side shorthand). -/
noncomputable def validCandidates (rcs : List RegionCondition) : List RegionCondition :=
  rcs.filter (fun rc => area rc.region.rect ≠ 0)

/-- Example record `nyc_rect` from the source. -/
noncomputable def nyc_rect : GlobeRect :=
  { lo_lat := 40.4, hi_lat := 41.2, west_long := -74.5, east_long := -73.5 }

/-- Example record `nyc_region` from the source. -/
noncomputable def nyc_region : Region :=
  { rect := nyc_rect, name := "New York City Metro", terrain := .other }

/-- Example record `nyc_condition` from the source. -/
noncomputable def nyc_condition : RegionCondition :=
  { region := nyc_region, year := 2020, pop := 19000000, ghg_rate := 170000000.0 }

/-- Example record `pacific_slice_rect` from the source (crosses the antimeridian). -/
noncomputable def pacific_slice_rect : GlobeRect :=
  { lo_lat := -10.0, hi_lat := 10.0, west_long := 170.0, east_long := -170.0 }

/-- Example record `slo_rect` from the source. -/
noncomputable def slo_rect : GlobeRect :=
  { lo_lat := 35.0, hi_lat := 35.6, west_long := -121.0, east_long := -120.3 }

/-- Example record `slo_region` from the source. -/
noncomputable def slo_region : Region :=
  { rect := slo_rect, name := "San Luis Obispo Area (incl. Cal Poly)", terrain := .other }

/-- Example record `slo_condition` from the source. -/
noncomputable def slo_condition : RegionCondition :=
  { region := slo_region, year := 2020, pop := 280000, ghg_rate := 1800000.0 }

/-- A polar-band demonstration rectangle: latitudes -90..90, longitudes 0..90.
Its area is provably nonzero, which the metric and selection witnesses need. -/
noncomputable def demo_rect : GlobeRect :=
  { lo_lat := -90, hi_lat := 90, west_long := 0, east_long := 90 }

/-- A region over `demo_rect`. -/
noncomputable def demo_region : Region :=
  { rect := demo_rect, name := "Demo", terrain := .other }

/-- A snapshot over `demo_region`. -/
noncomputable def demo_condition : RegionCondition :=
  { region := demo_region, year := 2020, pop := 1000, ghg_rate := 5.0 }

/-- The demo snapshot with a different `year` and `ghg_rate` but the same
region and population, for the noninterference witness. -/
noncomputable def demo_condition_alt : RegionCondition :=
  { region := demo_region, year := 2031, pop := 1000, ghg_rate := 99.5 }

/-- A degenerate rectangle with equal longitudes, hence zero area. -/
noncomputable def zero_rect : GlobeRect :=
  { lo_lat := 0, hi_lat := 10, west_long := 50, east_long := 50 }

/-- A snapshot whose region has zero area. -/
noncomputable def zero_area_condition : RegionCondition :=
  { region := { rect := zero_rect, name := "ZeroLong", terrain := .other },
    year := 2020, pop := 1000, ghg_rate := 10000.0 }

/-! ### Helper lemmas about `pyMod`, `radians` and `area` -/

theorem pyMod_nonneg_360 (x : ℝ) : 0 ≤ pyMod x 360 := by
  have h : ((⌊x / 360⌋ : ℤ) : ℝ) ≤ x / 360 := Int.floor_le _
  unfold pyMod
  linarith

theorem pyMod_lt_360 (x : ℝ) : pyMod x 360 < 360 := by
  have h : x / 360 < (⌊x / 360⌋ : ℤ) + 1 := Int.lt_floor_add_one _
  unfold pyMod
  push_cast at h
  linarith

theorem pyMod_sub_int_multiple (x : ℝ) : ∃ k : ℤ, x - pyMod x 360 = 360 * k := by
  exact ⟨⌊x / 360⌋, by unfold pyMod; ring⟩

theorem pyMod_zero_360 : pyMod 0 360 = 0 := by
  unfold pyMod
  norm_num

theorem pyMod_neg340 : pyMod (-340) 360 = 20 := by
  have h : ⌊(-340 : ℝ) / 360⌋ = -1 := by
    rw [Int.floor_eq_iff]
    constructor <;> norm_num
  unfold pyMod
  rw [h]
  norm_num

theorem radians_eq_zero_iff (x : ℝ) : radians x = 0 ↔ x = 0 := by
  unfold radians
  rw [div_eq_zero_iff, mul_eq_zero]
  simp [Real.pi_ne_zero]

theorem radians_nonneg {x : ℝ} (hx : 0 ≤ x) : 0 ≤ radians x := by
  unfold radians
  have := Real.pi_pos
  positivity

theorem area_nonneg (gr : GlobeRect) : 0 ≤ area gr := by
  unfold area
  refine mul_nonneg (mul_nonneg (by positivity) (abs_nonneg _)) ?_
  exact radians_nonneg (pyMod_nonneg_360 _)

theorem area_eq_zero_iff (gr : GlobeRect) :
    area gr = 0 ↔ pyMod (gr.east_long - gr.west_long) 360 = 0 ∨
      Real.sin (radians gr.hi_lat) = Real.sin (radians gr.lo_lat) := by
  unfold area
  rw [mul_eq_zero, mul_eq_zero, radians_eq_zero_iff, abs_eq_zero, sub_eq_zero]
  have hr : EARTH_RADIUS_KM ^ 2 ≠ 0 := by unfold EARTH_RADIUS_KM; norm_num
  tauto

/-! ### Claims about `area` -/

/-- Claim C1: for every GlobeRect, `area` returns exactly
`R² * |sin(radians hiLat) - sin(radians loLat)| * radians((eastLong - westLong) mod 360)`
with `R = 6371.0`, where the modulo maps any real into `[0, 360)` (differing
from the input by an integer multiple of 360): equal longitude bounds give
span 0, and antimeridian-crossing bounds west=170, east=-170 give the short
eastward span 20, not 340 the long way around. -/
theorem area_formula_and_wraparound :
    (∀ gr : GlobeRect, area gr =
        6371.0 ^ 2 *
          |Real.sin (gr.hi_lat * Real.pi / 180) - Real.sin (gr.lo_lat * Real.pi / 180)| *
          (pyMod (gr.east_long - gr.west_long) 360 * Real.pi / 180))
    ∧ (∀ x : ℝ, 0 ≤ pyMod x 360 ∧ pyMod x 360 < 360 ∧ ∃ k : ℤ, x - pyMod x 360 = 360 * k)
    ∧ pyMod (50 - 50) 360 = 0
    ∧ pyMod (-170 - 170) 360 = 20 := by
  refine ⟨fun gr => rfl, fun x => ⟨pyMod_nonneg_360 x, pyMod_lt_360 x, pyMod_sub_int_multiple x⟩, ?_, ?_⟩
  · rw [show (50 - 50 : ℝ) = 0 by norm_num]
    exact pyMod_zero_360
  · rw [show (-170 - 170 : ℝ) = -340 by norm_num]
    exact pyMod_neg340

/-- Claim C6: `area` is total (it returns a real, never an error), always
nonnegative, and is exactly zero precisely when the longitude bounds coincide
modulo 360 (`pyMod (east - west) 360 = 0`) or the latitude band degenerates
(the sine difference is zero); in particular `west_long = east_long` forces
area `0` for any latitude bounds. -/
theorem area_nonneg_and_zero_iff :
    (∀ gr : GlobeRect, 0 ≤ area gr)
    ∧ (∀ gr : GlobeRect, area gr = 0 ↔
        pyMod (gr.east_long - gr.west_long) 360 = 0 ∨
        Real.sin (radians gr.hi_lat) = Real.sin (radians gr.lo_lat))
    ∧ (∀ gr : GlobeRect, gr.west_long = gr.east_long → area gr = 0) := by
  refine ⟨area_nonneg, area_eq_zero_iff, fun gr h => ?_⟩
  rw [area_eq_zero_iff]
  left
  rw [h, sub_self]
  exact pyMod_zero_360

/-- Witness for C6: the degenerate rectangle with `west_long = east_long = 50`
has area exactly 0. -/
theorem area_nonneg_and_zero_iff_witness :
    area { lo_lat := 0, hi_lat := 10, west_long := 50, east_long := 50 } = 0 :=
  area_nonneg_and_zero_iff.2.2 _ rfl

/-- Claim C7: `area` is invariant under swapping the two latitude bounds,
for all latitude and longitude values (no `lo_lat < hi_lat` validation). -/
theorem area_lat_swap (a b w e : ℝ) :
    area { lo_lat := a, hi_lat := b, west_long := w, east_long := e } =
    area { lo_lat := b, hi_lat := a, west_long := w, east_long := e } := by
  show EARTH_RADIUS_KM ^ 2 * |Real.sin (radians b) - Real.sin (radians a)| *
      radians (pyMod (e - w) 360) =
    EARTH_RADIUS_KM ^ 2 * |Real.sin (radians a) - Real.sin (radians b)| *
      radians (pyMod (e - w) 360)
  rw [abs_sub_comm]

/-! ### Helper lemmas for concrete areas -/

theorem pyMod_90 : pyMod 90 360 = 90 := by
  have h : ⌊(90 : ℝ) / 360⌋ = 0 := by
    rw [Int.floor_eq_iff]
    constructor <;> norm_num
  unfold pyMod
  rw [h]
  norm_num

theorem sin_radians_90 : Real.sin (radians 90) = 1 := by
  have h : radians 90 = Real.pi / 2 := by
    unfold radians
    ring
  rw [h, Real.sin_pi_div_two]

theorem sin_radians_neg90 : Real.sin (radians (-90)) = -1 := by
  have h : radians (-90) = -(Real.pi / 2) := by
    unfold radians
    ring
  rw [h, Real.sin_neg, Real.sin_pi_div_two]

theorem area_demo_rect_ne_zero : area demo_rect ≠ 0 := by
  rw [Ne, area_eq_zero_iff]
  push_neg
  constructor
  · show pyMod (demo_rect.east_long - demo_rect.west_long) 360 ≠ 0
    have h : demo_rect.east_long - demo_rect.west_long = 90 := by
      simp [demo_rect]
    rw [h, pyMod_90]
    norm_num
  · show Real.sin (radians demo_rect.hi_lat) ≠ Real.sin (radians demo_rect.lo_lat)
    have h1 : demo_rect.hi_lat = 90 := rfl
    have h2 : demo_rect.lo_lat = -90 := rfl
    rw [h1, h2, sin_radians_90, sin_radians_neg90]
    norm_num

theorem area_zero_rect_eq_zero : area zero_rect = 0 := by
  apply (area_eq_zero_iff zero_rect).mpr
  left
  have h : zero_rect.east_long - zero_rect.west_long = 0 := by
    simp [zero_rect]
  rw [h]
  exact pyMod_zero_360

/-! ### Claims about the metrics -/

/-- Claim C4: `emissions_per_capita` fails with a domain error exactly when
the population is zero, and otherwise returns exactly `ghg_rate / pop`; no
other validation (in particular none on the sign of `ghg_rate`) is performed. -/
theorem emissions_per_capita_spec (rc : RegionCondition) :
    ((∃ e, emissions_per_capita rc = .error e) ↔ rc.pop = 0)
    ∧ (rc.pop ≠ 0 → emissions_per_capita rc = .ok (rc.ghg_rate / (rc.pop : ℝ))) := by
  unfold emissions_per_capita
  by_cases h : rc.pop = 0 <;> simp [h]

/-- Witness for C4: on the source's NYC example (population 19000000,
`ghg_rate` 170000000.0) the function returns the exact quotient. -/
theorem emissions_per_capita_spec_witness :
    emissions_per_capita nyc_condition = .ok (170000000.0 / 19000000) := by
  have h := (emissions_per_capita_spec nyc_condition).2 (by norm_num [nyc_condition])
  rw [h]
  norm_num [nyc_condition]

/-- Claim C5: `emissions_per_square_km` fails with a domain error exactly when
the computed area of the snapshot's region is 0.0, and otherwise returns
exactly `ghg_rate / area`. -/
theorem emissions_per_square_km_spec (rc : RegionCondition) :
    ((∃ e, emissions_per_square_km rc = .error e) ↔ area rc.region.rect = 0)
    ∧ (area rc.region.rect ≠ 0 →
        emissions_per_square_km rc = .ok (rc.ghg_rate / area rc.region.rect)) := by
  unfold emissions_per_square_km
  by_cases h : area rc.region.rect = 0 <;> simp [h]

/-- Witness for C5: the demo snapshot (nonzero-area polar band) yields the
exact quotient, and the equal-longitude snapshot yields a domain error. -/
theorem emissions_per_square_km_spec_witness :
    emissions_per_square_km demo_condition = .ok (5.0 / area demo_rect)
    ∧ (∃ e, emissions_per_square_km zero_area_condition = .error e) := by
  constructor
  · exact (emissions_per_square_km_spec demo_condition).2 area_demo_rect_ne_zero
  · exact ((emissions_per_square_km_spec zero_area_condition).1).mpr area_zero_rect_eq_zero

/-! ### Helper lemmas for `pyRound` and `growth_factor` -/

theorem pyRound_intCast (k : ℤ) : pyRound (k : ℝ) = k := by
  unfold pyRound
  rw [Int.fract_intCast, Int.floor_intCast]
  norm_num

theorem pyRound_abs_le (x : ℝ) : |(pyRound x : ℝ) - x| ≤ 1 / 2 := by
  have h0 : 0 ≤ Int.fract x := Int.fract_nonneg x
  have h1 : Int.fract x < 1 := Int.fract_lt_one x
  have hfl : ((⌊x⌋ : ℤ) : ℝ) = x - Int.fract x := (Int.self_sub_fract x).symm
  unfold pyRound
  split_ifs
  all_goals rw [abs_le]; push_cast; constructor <;> linarith [hfl]

theorem pyRound_nonneg {x : ℝ} (hx : 0 ≤ x) : 0 ≤ pyRound x := by
  have hfl : 0 ≤ ⌊x⌋ := Int.floor_nonneg.mpr hx
  unfold pyRound
  split_ifs <;> omega

theorem growth_factor_base_pos (t : Terrain) : (0 : ℝ) < 1.0 + TERRAIN_GROWTH t := by
  cases t <;> norm_num [TERRAIN_GROWTH]

theorem growth_factor_pos (t : Terrain) (n : ℤ) : 0 < growth_factor t n :=
  zpow_pos (growth_factor_base_pos t) n

theorem growth_factor_neg_mul (t : Terrain) (m : ℕ) :
    growth_factor t (-(m : ℤ)) * growth_factor t m = 1 := by
  have hb : (1.0 + TERRAIN_GROWTH t) ≠ 0 := ne_of_gt (growth_factor_base_pos t)
  unfold growth_factor
  rw [← zpow_add₀ hb]
  norm_num

/-! ### Claims about the projector -/

/-- Claim C2: `project_condition` at `n = 0` is the identity; for `n ≠ 0` it
returns a snapshot with `year + n`, population `max 0 (round (pop * (1+rate)^n))`
(rounding to the nearest integer), and `ghg_rate * (1+rate)^n` with no floor,
where the rate is the terrain's table entry (ocean 0.0001, mountains 0.0005,
forest -0.00001, other 0.00003) and `(1+rate)^n` is real integer
exponentiation valid for negative `n` as well (inverse of the positive power). -/
theorem project_condition_spec (rc : RegionCondition) (n : ℤ) :
    project_condition rc 0 = rc
    ∧ (n ≠ 0 → project_condition rc n =
        { region := rc.region
          year := rc.year + n
          pop := max 0 (pyRound ((rc.pop : ℝ) * (1 + TERRAIN_GROWTH rc.region.terrain) ^ n))
          ghg_rate := rc.ghg_rate * (1 + TERRAIN_GROWTH rc.region.terrain) ^ n })
    ∧ (TERRAIN_GROWTH .ocean = 0.0001 ∧ TERRAIN_GROWTH .mountains = 0.0005
        ∧ TERRAIN_GROWTH .forest = -0.00001 ∧ TERRAIN_GROWTH .other = 0.00003)
    ∧ (∀ x : ℝ, |(pyRound x : ℝ) - x| ≤ 1 / 2)
    ∧ (∀ (t : Terrain) (m : ℕ), growth_factor t (-(m : ℤ)) * growth_factor t m = 1) := by
  refine ⟨by simp [project_condition], fun hn => ?_, ⟨rfl, rfl, rfl, rfl⟩,
    pyRound_abs_le, growth_factor_neg_mul⟩
  simp only [project_condition, growth_factor, if_neg hn]
  norm_num

/-- Witness for C2: projecting the source's NYC example one year forward gives
year 2021, population 19000570 = round(19000000 * 1.00003) and `ghg_rate`
170005100.0 = 170000000.0 * 1.00003, with the region carried unchanged. -/
theorem project_condition_spec_witness :
    project_condition nyc_condition 1 =
      { region := nyc_region, year := 2021, pop := 19000570, ghg_rate := 170005100.0 } := by
  have h := (project_condition_spec nyc_condition 1).2.1 (by norm_num)
  rw [h]
  have harg : ((nyc_condition.pop : ℝ) *
      (1 + TERRAIN_GROWTH nyc_condition.region.terrain) ^ (1 : ℤ)) = ((19000570 : ℤ) : ℝ) := by
    norm_num [nyc_condition, nyc_region, TERRAIN_GROWTH, zpow_one]
  rw [harg, pyRound_intCast]
  norm_num [nyc_condition, nyc_region, TERRAIN_GROWTH, zpow_one]

/-- Claim C8: a projection step never changes the `region` reference: for all
snapshots and all integers `n`, `(project_condition rc n).region = rc.region`. -/
theorem project_condition_frame (rc : RegionCondition) (n : ℤ) :
    (project_condition rc n).region = rc.region := by
  by_cases h : n = 0 <;> simp [project_condition, h]

/-- Claim C10: the compound growth factor `(1+rate)^n` is strictly positive
for every terrain and every integer `n`; hence for nonnegative population the
`max 0` clamp is a no-op (the rounded product is already nonnegative), and the
projected `ghg_rate` keeps the sign of the input `ghg_rate`. -/
theorem growth_positive_clamp_noop_sign :
    (∀ (t : Terrain) (n : ℤ), 0 < growth_factor t n)
    ∧ (∀ (rc : RegionCondition) (n : ℤ), 0 ≤ rc.pop →
        max 0 (pyRound ((rc.pop : ℝ) * growth_factor rc.region.terrain n)) =
          pyRound ((rc.pop : ℝ) * growth_factor rc.region.terrain n))
    ∧ (∀ (rc : RegionCondition) (n : ℤ),
        (0 < rc.ghg_rate → 0 < (project_condition rc n).ghg_rate)
        ∧ (rc.ghg_rate < 0 → (project_condition rc n).ghg_rate < 0)
        ∧ (rc.ghg_rate = 0 → (project_condition rc n).ghg_rate = 0)) := by
  refine ⟨growth_factor_pos, fun rc n hpop => ?_, fun rc n => ?_⟩
  · have harg : 0 ≤ (rc.pop : ℝ) * growth_factor rc.region.terrain n :=
      mul_nonneg (by exact_mod_cast hpop) (growth_factor_pos _ _).le
    exact max_eq_right (pyRound_nonneg harg)
  · by_cases h : n = 0
    · subst h
      simp [project_condition]
    · have hfac := growth_factor_pos rc.region.terrain n
      simp only [project_condition, if_neg h]
      exact ⟨fun hg => mul_pos hg hfac, fun hg => mul_neg_of_neg_of_pos hg hfac,
        fun hg => by rw [hg, zero_mul]⟩

/-- Witness for C10: on the source's SLO example (population 280000 ≥ 0,
`ghg_rate` 1800000.0 > 0) projected 50 years, the clamp is a no-op and the
projected `ghg_rate` stays positive. -/
theorem growth_positive_clamp_noop_sign_witness :
    max 0 (pyRound ((slo_condition.pop : ℝ) * growth_factor slo_condition.region.terrain 50)) =
      pyRound ((slo_condition.pop : ℝ) * growth_factor slo_condition.region.terrain 50)
    ∧ 0 < (project_condition slo_condition 50).ghg_rate := by
  constructor
  · exact growth_positive_clamp_noop_sign.2.1 slo_condition 50 (by norm_num [slo_condition])
  · exact (growth_positive_clamp_noop_sign.2.2 slo_condition 50).1 (by norm_num [slo_condition])

/-! ### Helper lemmas for the `densest` scan -/

theorem area_zero_area_condition : area zero_area_condition.region.rect = 0 :=
  area_zero_rect_eq_zero

theorem area_demo_condition_ne : area demo_condition.region.rect ≠ 0 :=
  area_demo_rect_ne_zero

theorem densestLoop_nil (bn : Option String) (bd : ℝ) : densestLoop [] bn bd = bn := rfl

theorem densestLoop_cons (rc : RegionCondition) (rest : List RegionCondition)
    (bn : Option String) (bd : ℝ) :
    densestLoop (rc :: rest) bn bd =
      if area rc.region.rect = 0 then densestLoop rest bn bd
      else if (rc.pop : ℝ) / area rc.region.rect > bd then
        densestLoop rest (some rc.region.name) ((rc.pop : ℝ) / area rc.region.rect)
      else densestLoop rest bn bd := rfl

theorem validCandidates_nil : validCandidates [] = [] := rfl

theorem validCandidates_cons_of_zero {rc : RegionCondition} (rest : List RegionCondition)
    (h : area rc.region.rect = 0) :
    validCandidates (rc :: rest) = validCandidates rest := by
  simp [validCandidates, List.filter_cons, h]

theorem validCandidates_cons_of_ne {rc : RegionCondition} (rest : List RegionCondition)
    (h : area rc.region.rect ≠ 0) :
    validCandidates (rc :: rest) = rc :: validCandidates rest := by
  simp [validCandidates, List.filter_cons, h]

theorem mem_validCandidates {x : RegionCondition} {rcs : List RegionCondition} :
    x ∈ validCandidates rcs ↔ x ∈ rcs ∧ area x.region.rect ≠ 0 := by
  simp [validCandidates, List.mem_filter]

theorem densestLoop_no_update (l : List RegionCondition) (bn : Option String) (bd : ℝ)
    (h : ∀ x ∈ l, area x.region.rect ≠ 0 → density x ≤ bd) :
    densestLoop l bn bd = bn := by
  induction l generalizing bn bd with
  | nil => rfl
  | cons rc rest ih =>
    rw [densestLoop_cons]
    by_cases ha : area rc.region.rect = 0
    · rw [if_pos ha]
      exact ih bn bd fun x hx => h x (List.mem_cons_of_mem _ hx)
    · have hle : ¬((rc.pop : ℝ) / area rc.region.rect > bd) := by
        have hd := h rc (List.mem_cons_self _ _) ha
        unfold density at hd
        exact not_lt.mpr hd
      rw [if_neg ha, if_neg hle]
      exact ih bn bd fun x hx => h x (List.mem_cons_of_mem _ hx)

theorem densestLoop_update (l : List RegionCondition) (bd : ℝ)
    (h : ∃ x ∈ l, area x.region.rect ≠ 0 ∧ bd < density x) (bn : Option String) :
    ∃ l₁ rc l₂, validCandidates l = l₁ ++ rc :: l₂ ∧
      densestLoop l bn bd = some rc.region.name ∧
      bd < density rc ∧
      (∀ x ∈ l₁, density x < density rc) ∧
      (∀ x ∈ l₂, density x ≤ density rc) := by
  induction l generalizing bd bn with
  | nil => simp at h
  | cons rc₀ rest ih =>
    rw [densestLoop_cons]
    by_cases ha : area rc₀.region.rect = 0
    · rw [if_pos ha, validCandidates_cons_of_zero rest ha]
      apply ih
      obtain ⟨x, hx, hxa, hxd⟩ := h
      rcases List.mem_cons.mp hx with rfl | hx'
      · exact absurd ha hxa
      · exact ⟨x, hx', hxa, hxd⟩
    · rw [if_neg ha, validCandidates_cons_of_ne rest ha]
      have hdens : density rc₀ = (rc₀.pop : ℝ) / area rc₀.region.rect := rfl
      by_cases hgt : (rc₀.pop : ℝ) / area rc₀.region.rect > bd
      · rw [if_pos hgt]
        by_cases h2 : ∃ x ∈ rest, area x.region.rect ≠ 0 ∧ density rc₀ < density x
        · obtain ⟨l₁, rc, l₂, hsplit, hres, hbd, hbefore, hafter⟩ :=
            ih (density rc₀) h2 (some rc₀.region.name)
          refine ⟨rc₀ :: l₁, rc, l₂, by rw [hsplit, List.cons_append], ?_, ?_, ?_, hafter⟩
          · rw [← hdens]
            exact hres
          · exact lt_trans (hdens ▸ hgt) hbd
          · intro x hx
            rcases List.mem_cons.mp hx with rfl | hx'
            · exact hbd
            · exact hbefore x hx'
        · push_neg at h2
          have hstop : densestLoop rest (some rc₀.region.name)
              ((rc₀.pop : ℝ) / area rc₀.region.rect) = some rc₀.region.name := by
            apply densestLoop_no_update
            intro x hx hxa
            rw [← hdens]
            exact h2 x hx hxa
          refine ⟨[], rc₀, validCandidates rest, rfl, hstop, hdens ▸ hgt,
            fun x hx => absurd hx (List.not_mem_nil x), ?_⟩
          intro x hx
          obtain ⟨hx', hxa⟩ := mem_validCandidates.mp hx
          exact h2 x hx' hxa
      · rw [if_neg hgt]
        have hle : density rc₀ ≤ bd := by
          rw [hdens]
          exact not_lt.mp hgt
        have h' : ∃ x ∈ rest, area x.region.rect ≠ 0 ∧ bd < density x := by
          obtain ⟨x, hx, hxa, hxd⟩ := h
          rcases List.mem_cons.mp hx with rfl | hx'
          · exact absurd hxd (not_lt.mpr hle)
          · exact ⟨x, hx', hxa, hxd⟩
        obtain ⟨l₁, rc, l₂, hsplit, hres, hbd, hbefore, hafter⟩ := ih bd h' bn
        refine ⟨rc₀ :: l₁, rc, l₂, by rw [hsplit, List.cons_append], hres, hbd, ?_, hafter⟩
        intro x hx
        rcases List.mem_cons.mp hx with rfl | hx'
        · exact lt_of_le_of_lt hle hbd
        · exact hbefore x hx'

/-! ### Claims about `densest` -/

/-- Claim C3: `densest` fails with the empty-list domain error on `[]`; fails
with the all-zero-area domain error when every candidate is skipped; and
otherwise returns the name of the first positive-area candidate in input order
whose density equals the running maximum: the retained candidate `rc` splits
the non-skipped candidates as `l₁ ++ rc :: l₂` with every earlier density
strictly below and every later density at most `density rc`. -/
theorem densest_spec :
    densest [] = .error "Empty list - no regions to compare."
    ∧ (∀ rcs : List RegionCondition, rcs ≠ [] → validCandidates rcs = [] →
        densest rcs = .error "All regions had zero area.")
    ∧ (∀ rcs : List RegionCondition, (∀ x ∈ rcs, 0 ≤ x.pop) → validCandidates rcs ≠ [] →
        ∃ l₁ rc l₂, validCandidates rcs = l₁ ++ rc :: l₂ ∧
          densest rcs = .ok rc.region.name ∧
          (∀ x ∈ l₁, density x < density rc) ∧
          (∀ x ∈ l₂, density x ≤ density rc)) := by
  refine ⟨rfl, ?_, ?_⟩
  · intro rcs hne hvalid
    obtain ⟨r, rs, rfl⟩ := List.exists_cons_of_ne_nil hne
    have hall : ∀ x ∈ r :: rs, area x.region.rect ≠ 0 → density x ≤ (-1 : ℝ) := by
      intro x hx hxa
      exfalso
      have hmem : x ∈ validCandidates (r :: rs) := mem_validCandidates.mpr ⟨hx, hxa⟩
      rw [hvalid] at hmem
      exact absurd hmem (List.not_mem_nil x)
    have hnone : densestLoop (r :: rs) none (-1) = none :=
      densestLoop_no_update _ _ _ hall
    simp only [densest]
    rw [hnone]
  · intro rcs hpop hvne
    obtain ⟨y, hy⟩ : ∃ y, y ∈ validCandidates rcs :=
      List.exists_mem_of_ne_nil _ hvne
    have hymem := mem_validCandidates.mp hy
    have hva : 0 ≤ density y := by
      unfold density
      apply div_nonneg
      · exact_mod_cast hpop y hymem.1
      · exact area_nonneg _
    have hex : ∃ x ∈ rcs, area x.region.rect ≠ 0 ∧ (-1 : ℝ) < density x :=
      ⟨y, hymem.1, hymem.2, lt_of_lt_of_le (by norm_num) hva⟩
    obtain ⟨l₁, rc, l₂, hsplit, hres, _, hbefore, hafter⟩ :=
      densestLoop_update rcs (-1) hex none
    have hne : rcs ≠ [] := by
      intro hnil
      subst hnil
      exact hvne rfl
    obtain ⟨r, rs, rfl⟩ := List.exists_cons_of_ne_nil hne
    refine ⟨l₁, rc, l₂, hsplit, ?_, hbefore, hafter⟩
    simp only [densest]
    rw [hres]

/-- Witness for C3: the empty list and an all-zero-area list produce the two
domain errors, and a singleton positive-area list returns its region's name. -/
theorem densest_spec_witness :
    densest [] = .error "Empty list - no regions to compare."
    ∧ densest [zero_area_condition] = .error "All regions had zero area."
    ∧ densest [demo_condition] = .ok "Demo" := by
  refine ⟨densest_spec.1, ?_, ?_⟩
  · apply densest_spec.2.1 [zero_area_condition] (by simp)
    rw [validCandidates_cons_of_zero [] area_zero_area_condition]
    exact validCandidates_nil
  · have hvalid : validCandidates [demo_condition] = [demo_condition] := by
      rw [validCandidates_cons_of_ne [] area_demo_condition_ne]
      rfl
    have h3 := densest_spec.2.2 [demo_condition]
      (by
        intro x hx
        rw [List.mem_singleton] at hx
        subst hx
        norm_num [demo_condition])
      (by rw [hvalid]; simp)
    obtain ⟨l₁, rc, l₂, hsplit, hres, _, _⟩ := h3
    rw [hvalid] at hsplit
    cases l₁ with
    | nil =>
      rw [List.nil_append] at hsplit
      injection hsplit with h1 h2
      subst h1
      exact hres
    | cons a t =>
      exfalso
      have hlen := congrArg List.length hsplit
      simp [List.length_append] at hlen

/-- Claim C9: the result of `densest` does not depend on `year` or `ghg_rate`:
on two lists whose corresponding elements agree on `region` and `pop`, it
returns the same name or fails with the same domain error. -/
theorem densest_year_ghg_irrelevant (l l' : List RegionCondition)
    (h : List.Forall₂ (fun a b => a.region = b.region ∧ a.pop = b.pop) l l') :
    densest l = densest l' := by
  have hloop : ∀ {m m' : List RegionCondition},
      List.Forall₂ (fun a b => a.region = b.region ∧ a.pop = b.pop) m m' →
      ∀ (bn : Option String) (bd : ℝ), densestLoop m bn bd = densestLoop m' bn bd := by
    intro m m' hmm
    induction hmm with
    | nil => intro bn bd; rfl
    | cons hab _ ih =>
      intro bn bd
      obtain ⟨hreg, hpop⟩ := hab
      rw [densestLoop_cons, densestLoop_cons, hreg, hpop]
      split_ifs <;> apply ih
  cases h with
  | nil => rfl
  | cons hab htail =>
    simp only [densest]
    rw [hloop (List.Forall₂.cons hab htail) none (-1)]

/-- Witness for C9: two singleton lists whose snapshots share region and
population but differ in `year` (2020 vs 2031) and `ghg_rate` (5.0 vs 99.5)
get the same answer from `densest`. -/
theorem densest_year_ghg_irrelevant_witness :
    densest [demo_condition] = densest [demo_condition_alt] :=
  densest_year_ghg_irrelevant _ _ (List.Forall₂.cons ⟨rfl, rfl⟩ List.Forall₂.nil)

end GeoModel
